import Mathlib

/-!
A shallow embedding of the Pet Store HTTP service (service/routes.py).

Each route handler is a pure function from the parts of the request it reads
(path id, query parameters, Content-Type header, body) and the current record
store to a response and the resulting store.  The Pet entity's persistence
operations (find, all, find-by-field, create, update, delete) and its
serialize/deserialize live in the external model layer, not in the routed
file; they are modelled from the specification and say so in their doc
comments.  Error messages follow the source f-strings, except that the
single-quote marks the source puts around interpolated ids are elided from
the string literals.
-/

namespace PetStore

/-- A Pet record: the five fields of the data model.  Path ids arrive as
strings, so ids are kept as strings throughout. -/
structure Pet where
  id : String
  name : String
  category : String
  available : Bool
  gender : String
deriving DecidableEq

/-- The persisted state: the record store holds the sequence of Pet records. -/
abbrev Store := List Pet

/-- The JSON shape of a serialized Pet: all five fields. -/
structure PetJson where
  id : String
  name : String
  category : String
  available : Bool
  gender : String
deriving DecidableEq

/-- Modelled from the spec: serialize() produces a JSON-compatible mapping
with all five fields. -/
def Pet.serialize (p : Pet) : PetJson :=
  { id := p.id, name := p.name, category := p.category,
    available := p.available, gender := p.gender }

/-- Modelled from the spec: the store's find-by-id lookup (Pet.find). -/
def Pet.find (store : Store) (pid : String) : Option Pet :=
  store.find? (fun p => p.id == pid)

/-- Modelled from the spec: find-by-field with exact match on category. -/
def find_by_category (store : Store) (c : String) : List Pet :=
  store.filter (fun p => p.category == c)

/-- Modelled from the spec: find-by-field with exact match on name. -/
def find_by_name (store : Store) (n : String) : List Pet :=
  store.filter (fun p => p.name == n)

/-- Modelled from the spec: find-by-field on the availability flag. -/
def find_by_availability (store : Store) (a : Bool) : List Pet :=
  store.filter (fun p => p.available == a)

/-- Modelled from the spec: find-by-field with exact match on gender. -/
def find_by_gender (store : Store) (g : String) : List Pet :=
  store.filter (fun p => p.gender == g)

/-- Modelled from the spec: Pet.all returns every record. -/
def Pet.all (store : Store) : List Pet := store

/-- Modelled from the spec: update persists the record under its id. -/
def Pet.update (store : Store) (pet : Pet) : Store :=
  store.map (fun q => if q.id == pet.id then pet else q)

/-- Modelled from the spec: delete removes the record with the given id. -/
def Pet.delete (store : Store) (pid : String) : Store :=
  store.filter (fun p => !(p.id == pid))

/-- The four mutable fields Pet.deserialize populates. -/
structure PetFields where
  name : String
  category : String
  available : Bool
  gender : String
deriving DecidableEq

/-- Modelled from the spec: the store assigns a fresh id on creation. -/
def freshId (store : Store) : String :=
  toString (store.length + 1)

/-- Modelled from the spec: create persists a new record, the store assigning
its id. -/
def Pet.create (store : Store) (f : PetFields) : Pet × Store :=
  let pet : Pet :=
    { id := freshId store, name := f.name, category := f.category,
      available := f.available, gender := f.gender }
  (pet, store ++ [pet])

/-- Modelled from the spec: the recognized gender tokens, a small fixed
enumerated set; the deserialization contract rejects any other token. -/
def validGender (g : String) : Bool :=
  ["MALE", "FEMALE", "UNKNOWN"].contains g

/-- A request body for create/update, abstracted post-validation: valid
carries a mapping that deserializes successfully (the four mutable fields,
and possibly a client-supplied id); malformed stands for any mapping the
deserialization contract rejects, an unrecognized gender token included. -/
inductive JsonBody where
  | valid (bodyId : Option String) (name : String) (category : String)
      (available : Bool) (gender : String)
  | malformed
deriving DecidableEq

/-- Modelled from the spec: Pet.deserialize populates name, category,
available and gender from the mapping, never the id, and raises a validation
error, surfaced by the handlers as HTTP 400, on malformed input. -/
def deserialize : JsonBody → Except String PetFields
  | .valid _ n c a g =>
      .ok { name := n, category := c, available := a, gender := g }
  | .malformed => .error "Invalid pet data"

/-- A form-encoded body: the four fields as raw strings (request.form). -/
structure FormData where
  name : String
  category : String
  available : String
  gender : String
deriving DecidableEq

/-- The observable part of an HTTP response. -/
inductive Resp where
  | listOk (status : Nat) (body : List PetJson)
  | petOk (status : Nat) (body : PetJson)
  | created (status : Nat) (body : PetJson) (location : String)
  | noContent (status : Nat)
  | error (status : Nat) (message : String)
deriving DecidableEq

/-- The HTTP status code of a response. -/
def Resp.statusCode : Resp → Nat
  | .listOk s _ => s
  | .petOk s _ => s
  | .created s _ _ => s
  | .noContent s => s
  | .error s _ => s

/-- Python truthiness of an optional query-parameter or header string
(request.args.get / request.headers.get): absent (None) and the empty
string are both falsy. -/
def truthyParam : Option String → Bool
  | none => false
  | some s => !s.isEmpty

/-- The truthy-token test applied to the available field, written in the
source as: value.lower() in ["yes", "y", "true", "t", "1"]. -/
def truthy (s : String) : Bool :=
  ["yes", "y", "true", "t", "1"].contains s.toLower

/-- GET /pets (list_pets): sequential if/elif filter selection over the four
optional query parameters, then serialization with HTTP 200. -/
def list_pets (store : Store) (category name available gender : Option String) :
    Resp :=
  let pets :=
    if truthyParam category then find_by_category store (category.getD "")
    else if truthyParam name then find_by_name store (name.getD "")
    else if truthyParam available then
      find_by_availability store (truthy (available.getD ""))
    else if truthyParam gender then find_by_gender store (gender.getD "")
    else Pet.all store
  Resp.listOk 200 (pets.map Pet.serialize)

/-- GET /pets/id (get_pets): 404 when absent, else the serialized Pet. -/
def get_pets (store : Store) (pid : String) : Resp :=
  match Pet.find store pid with
  | none => Resp.error 404 ("Pet with id " ++ pid ++ " was not found.")
  | some pet => Resp.petOk 200 pet.serialize

/-- POST /pets (create_pets): the Content-Type gate, the per-type body
extraction, then deserialize and create.  The form mapping carries raw
request.form strings, so turning it into the abstract body applies the
validation deserialize performs on it: available is parsed with the truthy
rule, and an unrecognized gender token yields a body deserialize rejects. -/
def create_pets (store : Store) (content_type : Option String)
    (form : FormData) (body : JsonBody) : Resp × Store :=
  if !truthyParam content_type then
    (Resp.error 400 "No Content-Type set", store)
  else
    let ct := content_type.getD ""
    let data : Except String JsonBody :=
      if ct == "application/x-www-form-urlencoded" then
        .ok (if validGender form.gender then
          .valid none form.name form.category (truthy form.available)
            form.gender
          else .malformed)
      else if ct == "application/json" then
        .ok body
      else
        .error ("Unsupported Content-Type: " ++ ct)
    match data with
    | .error msg => (Resp.error 400 msg, store)
    | .ok d =>
      match deserialize d with
      | .error msg => (Resp.error 400 msg, store)
      | .ok fields =>
        let pc := Pet.create store fields
        (Resp.created 201 pc.1.serialize ("/pets/" ++ pc.1.id), pc.2)

/-- The shared validator check_content_type: none when the header equals the
required media type, otherwise the abort response it raises. -/
def check_content_type (content_type : Option String) (media_type : String) :
    Option Resp :=
  if !truthyParam content_type then
    some (Resp.error 400 "No Content-Type set")
  else if content_type.getD "" == media_type then
    none
  else
    some (Resp.error 415 ("Content-Type must be " ++ media_type))

/-- PUT /pets/id (update_pets): content-type check first, then lookup,
then full-replace deserialization with the path id forced on. -/
def update_pets (store : Store) (pid : String) (content_type : Option String)
    (body : JsonBody) : Resp × Store :=
  match check_content_type content_type "application/json" with
  | some err => (err, store)
  | none =>
    match Pet.find store pid with
    | none =>
        (Resp.error 404 ("Pet with id " ++ pid ++ " was not found."), store)
    | some _ =>
      match deserialize body with
      | .error msg => (Resp.error 400 msg, store)
      | .ok fields =>
        let pet : Pet :=
          { id := pid, name := fields.name, category := fields.category,
            available := fields.available, gender := fields.gender }
        (Resp.petOk 200 pet.serialize, Pet.update store pet)

/-- DELETE /pets/id (delete_pets): deletes when found, 204 either way. -/
def delete_pets (store : Store) (pid : String) : Resp × Store :=
  match Pet.find store pid with
  | some pet => (Resp.noContent 204, Pet.delete store pet.id)
  | none => (Resp.noContent 204, store)

/-- PUT /pets/id/purchase (purchase_pets): 404 when absent, 409 when already
unavailable, else flip available to false, persist, 200. -/
def purchase_pets (store : Store) (pid : String) : Resp × Store :=
  match Pet.find store pid with
  | none =>
      (Resp.error 404 ("Pet with id " ++ pid ++ " was not found."), store)
  | some pet =>
    if !pet.available then
      (Resp.error 409 ("Pet with id " ++ pid ++ " is not available."), store)
    else
      let sold : Pet := { pet with available := false }
      (Resp.petOk 200 sold.serialize, Pet.update store sold)

/-- The string s has pat as a substring. -/
def containsStr (s pat : String) : Prop :=
  ∃ pre post, s = pre ++ pat ++ post

/-- An element find? returns satisfies the predicate and is in the list. -/
theorem find_some_beq {store : Store} {pid : String} {pet : Pet}
    (h : Pet.find store pid = some pet) : pet.id = pid ∧ pet ∈ store := by
  unfold Pet.find at h
  have h1 := List.find?_some h
  have h2 := List.mem_of_find?_eq_some h
  exact ⟨by simpa using h1, h2⟩

/-- C1: purchasing an existing Pet whose available flag is true flips the flag
to false, persists the changed record via update, and returns the serialized
Pet with HTTP 200; moreover purchase never makes a Pet available: every record
that is available after the request was already present before it. -/
theorem purchase_available_sells (store : Store) (pid : String) (pet : Pet)
    (hfind : Pet.find store pid = some pet) (hav : pet.available = true) :
    purchase_pets store pid =
      (Resp.petOk 200 (Pet.serialize { pet with available := false }),
        Pet.update store { pet with available := false })
    ∧ ∀ q : Pet, q ∈ (purchase_pets store pid).2 → q.available = true →
        q ∈ store := by
  have heq : purchase_pets store pid =
      (Resp.petOk 200 (Pet.serialize { pet with available := false }),
        Pet.update store { pet with available := false }) := by
    simp [purchase_pets, hfind, hav]
  refine ⟨heq, ?_⟩
  intro q hq hqa
  rw [heq] at hq
  simp only [Pet.update, List.mem_map] at hq
  obtain ⟨r, hr, hrq⟩ := hq
  split at hrq
  · rw [← hrq] at hqa
    simp at hqa
  · rw [← hrq]
    exact hr

/-- C1 witness: a concrete available Pet is sold. -/
theorem purchase_available_sells_witness :
    purchase_pets [⟨ "1", "Fido", "dog", true, "MALE"⟩] "1" =
      (Resp.petOk 200 (Pet.serialize ⟨ "1", "Fido", "dog", false, "MALE"⟩),
        Pet.update [⟨ "1", "Fido", "dog", true, "MALE"⟩]
          ⟨ "1", "Fido", "dog", false, "MALE"⟩) :=
  (purchase_available_sells [⟨ "1", "Fido", "dog", true, "MALE"⟩] "1"
    ⟨ "1", "Fido", "dog", true, "MALE"⟩ (by decide) rfl).1

/-- C2: purchase of an id that names no Pet fails with HTTP 404; purchase of
an existing but unavailable Pet fails with HTTP 409, its message contains the
words is not available, and the store is unchanged. -/
theorem purchase_error_paths (store : Store) (pid : String) :
    (Pet.find store pid = none →
      purchase_pets store pid =
        (Resp.error 404 ("Pet with id " ++ pid ++ " was not found."), store))
    ∧ (∀ pet : Pet, Pet.find store pid = some pet → pet.available = false →
        purchase_pets store pid =
          (Resp.error 409 ("Pet with id " ++ pid ++ " is not available."),
            store)
        ∧ containsStr ("Pet with id " ++ pid ++ " is not available.")
            "is not available") := by
  constructor
  · intro hnone
    simp [purchase_pets, hnone]
  · intro pet hfind hnav
    constructor
    · simp [purchase_pets, hfind, hnav]
    · unfold containsStr
      refine ⟨ "Pet with id " ++ pid ++ " ", ".", ?_⟩
      have hlit : (" " ++ ("is not available" ++ ".") : String) =
          " is not available." := by decide
      simp only [String.append_assoc, hlit]

/-- C2 witness: purchase on an empty store and on an unavailable Pet. -/
theorem purchase_error_paths_witness :
    purchase_pets [⟨ "7", "Rex", "dog", false, "MALE"⟩] "7" =
      (Resp.error 409 ("Pet with id " ++ "7" ++ " is not available."),
        [⟨ "7", "Rex", "dog", false, "MALE"⟩])
    ∧ containsStr ("Pet with id " ++ "7" ++ " is not available.")
        "is not available" :=
  (purchase_error_paths [⟨ "7", "Rex", "dog", false, "MALE"⟩] "7").2
    ⟨ "7", "Rex", "dog", false, "MALE"⟩ (by decide) rfl

/-- C3: delete always answers HTTP 204 with an empty body, never 404; it
leaves the store unchanged when the id names no record, and after the request
no record with the given id remains. -/
theorem delete_idempotent_204 (store : Store) (pid : String) :
    (delete_pets store pid).1 = Resp.noContent 204
    ∧ (Pet.find store pid = none → (delete_pets store pid).2 = store)
    ∧ Pet.find (delete_pets store pid).2 pid = none := by
  refine ⟨?_, ?_, ?_⟩
  · unfold delete_pets
    cases h : Pet.find store pid <;> simp
  · intro hnone
    simp [delete_pets, hnone]
  · cases h : Pet.find store pid with
    | none =>
      have h2 : (delete_pets store pid).2 = store := by simp [delete_pets, h]
      rw [h2]
      exact h
    | some pet =>
      have h2 : (delete_pets store pid).2 = Pet.delete store pet.id := by
        simp [delete_pets, h]
      rw [h2]
      have hid : pet.id = pid := (find_some_beq h).1
      unfold Pet.find Pet.delete
      rw [List.find?_eq_none]
      intro q hq
      have hmem := (List.mem_filter.mp hq).2
      simp only [Bool.not_eq_true', beq_eq_false_iff_ne] at hmem
      simp only [beq_iff_eq]
      rw [hid] at hmem
      exact hmem

/-- C3 witness: deleting a missing id is a 204 no-op. -/
theorem delete_idempotent_204_witness :
    (delete_pets [⟨ "1", "Fido", "dog", true, "MALE"⟩] "2").2 =
      [⟨ "1", "Fido", "dog", true, "MALE"⟩] :=
  (delete_idempotent_204 [⟨ "1", "Fido", "dog", true, "MALE"⟩] "2").2.1
    (by decide)

/-- C4: only the first truthy filter in the fixed order category, name,
available, gender is applied, and a request with none of the four returns
every record. -/
theorem list_pets_filter_precedence (store : Store)
    (category name available gender : Option String) :
    (truthyParam category = true →
      list_pets store category name available gender =
        Resp.listOk 200
          ((find_by_category store (category.getD "")).map Pet.serialize))
    ∧ (truthyParam category = false → truthyParam name = true →
      list_pets store category name available gender =
        Resp.listOk 200
          ((find_by_name store (name.getD "")).map Pet.serialize))
    ∧ (truthyParam category = false → truthyParam name = false →
      truthyParam available = true →
      list_pets store category name available gender =
        Resp.listOk 200
          ((find_by_availability store
            (truthy (available.getD ""))).map Pet.serialize))
    ∧ (truthyParam category = false → truthyParam name = false →
      truthyParam available = false → truthyParam gender = true →
      list_pets store category name available gender =
        Resp.listOk 200
          ((find_by_gender store (gender.getD "")).map Pet.serialize))
    ∧ (truthyParam category = false → truthyParam name = false →
      truthyParam available = false → truthyParam gender = false →
      list_pets store category name available gender =
        Resp.listOk 200 (store.map Pet.serialize)) := by
  refine ⟨?_, ?_, ?_, ?_, ?_⟩ <;> intros <;> simp [list_pets, Pet.all, *]

/-- C4 witness: with both category and name set, only category filters. -/
theorem list_pets_filter_precedence_witness :
    list_pets [] (some "dog") (some "Fido") none none =
      Resp.listOk 200
        ((find_by_category [] ((some "dog").getD "")).map Pet.serialize) :=
  (list_pets_filter_precedence [] (some "dog") (some "Fido") none none).1 rfl

/-- C9: a filter parameter present with an empty-string value is treated
exactly like an absent one, and a lone empty category parameter returns all
records. -/
theorem list_pets_empty_param_is_absent (store : Store)
    (category name available gender : Option String) :
    (list_pets store (some "") name available gender =
      list_pets store none name available gender)
    ∧ (list_pets store category (some "") available gender =
      list_pets store category none available gender)
    ∧ (list_pets store category name (some "") gender =
      list_pets store category name none gender)
    ∧ (list_pets store category name available (some "") =
      list_pets store category name available none)
    ∧ list_pets store (some "") none none none =
        Resp.listOk 200 (store.map Pet.serialize) := by
  have he : ("" : String).isEmpty = true := rfl
  refine ⟨?_, ?_, ?_, ?_, ?_⟩ <;> simp [list_pets, truthyParam, Pet.all, he]

/-- C5: the available string is parsed as true exactly when its lowercasing
is one of the five truthy tokens; the list endpoint filter parses with this
function, and so does the form-encoded create for any form whose gender
token passes the deserialization contract. -/
theorem truthy_token_set (s : String) :
    (truthy s = true ↔
      (s.toLower = "yes" ∨ s.toLower = "y" ∨ s.toLower = "true" ∨
        s.toLower = "t" ∨ s.toLower = "1"))
    ∧ (∀ store : Store, s.isEmpty = false →
      list_pets store none none (some s) none =
        Resp.listOk 200
          ((find_by_availability store (truthy s)).map Pet.serialize))
    ∧ (∀ (store : Store) (form : FormData) (body : JsonBody),
      form.available = s → validGender form.gender = true →
      create_pets store (some "application/x-www-form-urlencoded") form
          body =
        (Resp.created 201
          (Pet.serialize
            ⟨freshId store, form.name, form.category, truthy s, form.gender⟩)
          ("/pets/" ++ freshId store),
          store ++
            [⟨freshId store, form.name, form.category, truthy s,
              form.gender⟩])) := by
  refine ⟨?_, ?_, ?_⟩
  · simp [truthy]
  · intro store h
    simp [list_pets, truthyParam, h]
  · intro store form body hform hg
    subst hform
    have hct : truthyParam (some "application/x-www-form-urlencoded") =
        true := rfl
    simp [create_pets, hct, hg, deserialize, Pet.create]

/-- C5 witness: the token No parses as false and drives the list filter,
and the token yes drives the form-encoded create of a valid form. -/
theorem truthy_token_set_witness :
    (list_pets [] none none (some "No") none =
      Resp.listOk 200
        ((find_by_availability [] (truthy "No")).map Pet.serialize))
    ∧ create_pets [] (some "application/x-www-form-urlencoded")
        ⟨ "Fido", "dog", "yes", "MALE"⟩ JsonBody.malformed =
        (Resp.created 201
          (Pet.serialize ⟨freshId [], "Fido", "dog", truthy "yes", "MALE"⟩)
          ("/pets/" ++ freshId []),
          [] ++ [⟨freshId [], "Fido", "dog", truthy "yes", "MALE"⟩]) :=
  ⟨(truthy_token_set "No").2.1 [] rfl,
    (truthy_token_set "yes").2.2 [] ⟨ "Fido", "dog", "yes", "MALE"⟩
      JsonBody.malformed rfl (by decide)⟩

/-- C6: create with no Content-Type header fails with HTTP 400 and the
message No Content-Type set; create with any Content-Type other than the
form-encoded and JSON types fails with HTTP 400, the message containing the
offending type, and the store is unchanged, so no deserialization or
creation happens. -/
theorem create_content_type_gate (store : Store) (form : FormData)
    (body : JsonBody) :
    create_pets store none form body =
        (Resp.error 400 "No Content-Type set", store)
    ∧ (∀ ct : String, ct ≠ "application/x-www-form-urlencoded" →
        ct ≠ "application/json" →
        ∃ msg, create_pets store (some ct) form body =
            (Resp.error 400 msg, store)
          ∧ containsStr msg ct) := by
  constructor
  · rfl
  · intro ct h1 h2
    by_cases he : ct = ""
    · subst he
      refine ⟨ "No Content-Type set", rfl, "", "No Content-Type set", ?_⟩
      decide
    · have hne : ct.isEmpty = false := by
        rw [Bool.eq_false_iff]
        intro hc
        exact he ((String.isEmpty_iff ct).mp hc)
      have hb1 : (ct == "application/x-www-form-urlencoded") = false :=
        beq_eq_false_iff_ne.mpr h1
      have hb2 : (ct == "application/json") = false :=
        beq_eq_false_iff_ne.mpr h2
      refine ⟨ "Unsupported Content-Type: " ++ ct, ?_, ?_⟩
      · simp [create_pets, truthyParam, hne, hb1, hb2]
      · exact ⟨ "Unsupported Content-Type: ", "",
          by rw [String.append_empty]⟩

/-- C6 witness: a plain-text Content-Type is refused with 400. -/
theorem create_content_type_gate_witness :
    ∃ msg, create_pets [] (some "text/plain")
        ⟨ "Fido", "dog", "yes", "MALE"⟩ JsonBody.malformed =
        (Resp.error 400 msg, [])
      ∧ containsStr msg "text/plain" :=
  (create_content_type_gate [] ⟨ "Fido", "dog", "yes", "MALE"⟩
    JsonBody.malformed).2 "text/plain" (by decide) (by decide)

/-- C7 counterexample: a Content-Type header that is present with the empty
value, which differs from application/json, is answered with HTTP 400, not
the claimed 415. -/
theorem update_present_empty_ct_cex :
    (some "" : Option String) ≠ (none : Option String)
    ∧ ("" : String) ≠ "application/json"
    ∧ (update_pets [] "1" (some "") JsonBody.malformed).1 =
        Resp.error 400 "No Content-Type set"
    ∧ (update_pets [] "1" (some "") JsonBody.malformed).1.statusCode ≠ 415 := by
  refine ⟨by decide, by decide, rfl, by decide⟩

/-- C7 as amended: on update, the shared validator runs before the record
lookup and its abort is the response with the store untouched; a missing
header, or one present with the empty value, fails with HTTP 400, and a
present nonempty Content-Type other than application/json fails with
HTTP 415. -/
theorem update_content_type_gate (store : Store) (pid : String)
    (body : JsonBody) (ct : Option String) :
    (∀ r : Resp, check_content_type ct "application/json" = some r →
      update_pets store pid ct body = (r, store))
    ∧ check_content_type none "application/json" =
        some (Resp.error 400 "No Content-Type set")
    ∧ check_content_type (some "") "application/json" =
        some (Resp.error 400 "No Content-Type set")
    ∧ (∀ s : String, s.isEmpty = false → s ≠ "application/json" →
      check_content_type (some s) "application/json" =
        some (Resp.error 415 ("Content-Type must be " ++
          "application/json"))) := by
  refine ⟨?_, rfl, rfl, ?_⟩
  · intro r h
    simp [update_pets, h]
  · intro s hne hneq
    have hb : (s == "application/json") = false :=
      beq_eq_false_iff_ne.mpr hneq
    simp [check_content_type, truthyParam, hne, hb]

/-- C7 witness: a missing Content-Type aborts update with 400 before any
lookup in the empty store. -/
theorem update_content_type_gate_witness :
    update_pets [] "1" none JsonBody.malformed =
      (Resp.error 400 "No Content-Type set", []) :=
  (update_content_type_gate [] "1" JsonBody.malformed none).1
    (Resp.error 400 "No Content-Type set") rfl

/-- Updating the record under pid and looking pid up again yields the new
record, provided some record with that id was found before. -/
theorem find_update_self (store : Store) (pid : String) (newPet : Pet)
    (hid : newPet.id = pid) :
    ∀ pet : Pet, Pet.find store pid = some pet →
      Pet.find (Pet.update store newPet) pid = some newPet := by
  induction store with
  | nil =>
    intro pet hfind
    simp [Pet.find] at hfind
  | cons q rest ih =>
    intro pet hfind
    by_cases hq : q.id = pid
    · have hcond : (q.id == newPet.id) = true := by
        rw [hid]
        exact beq_iff_eq.mpr hq
      have hnew : (newPet.id == pid) = true := beq_iff_eq.mpr hid
      simp only [Pet.find, Pet.update, List.map_cons, hcond, if_pos,
        List.find?_cons_of_pos, hnew]
    · have hcond : (q.id == newPet.id) = false := by
        rw [hid]
        exact beq_eq_false_iff_ne.mpr hq
      have hq2 : (q.id == pid) = false := beq_eq_false_iff_ne.mpr hq
      have hrest : Pet.find rest pid = some pet := by
        unfold Pet.find at hfind ⊢
        rw [List.find?_cons_of_neg] at hfind
        · exact hfind
        · simp [hq2]
      have htail := ih pet hrest
      unfold Pet.find Pet.update at htail ⊢
      simp only [List.map_cons, hcond, if_neg, Bool.false_eq_true,
        not_false_eq_true, List.find?_cons_of_neg, hq2]
      exact htail

/-- C8: a successful update of an existing Pet replaces all four mutable
fields from the body, the persisted record carries the path id whatever id
the body supplied, and the handler answers HTTP 200 with the serialized
Pet. -/
theorem update_full_replace_path_id_wins (store : Store) (pid : String)
    (pet : Pet) (bodyId : Option String) (n c g : String) (a : Bool)
    (hfind : Pet.find store pid = some pet) :
    update_pets store pid (some "application/json")
        (JsonBody.valid bodyId n c a g) =
      (Resp.petOk 200 (Pet.serialize ⟨pid, n, c, a, g⟩),
        Pet.update store ⟨pid, n, c, a, g⟩)
    ∧ Pet.find
        (update_pets store pid (some "application/json")
          (JsonBody.valid bodyId n c a g)).2 pid =
        some ⟨pid, n, c, a, g⟩ := by
  have hct : check_content_type (some "application/json")
      "application/json" = none := rfl
  have heq : update_pets store pid (some "application/json")
      (JsonBody.valid bodyId n c a g) =
      (Resp.petOk 200 (Pet.serialize ⟨pid, n, c, a, g⟩),
        Pet.update store ⟨pid, n, c, a, g⟩) := by
    simp [update_pets, hct, hfind, deserialize]
  refine ⟨heq, ?_⟩
  rw [heq]
  exact find_update_self store pid ⟨pid, n, c, a, g⟩ rfl pet hfind

/-- C8 witness: the body id 999 is overridden by the path id 1. -/
theorem update_full_replace_path_id_wins_witness :
    update_pets [⟨ "1", "Old", "cat", false, "FEMALE"⟩] "1"
        (some "application/json")
        (JsonBody.valid (some "999") "New" "dog" true "MALE") =
      (Resp.petOk 200 (Pet.serialize ⟨ "1", "New", "dog", true, "MALE"⟩),
        Pet.update [⟨ "1", "Old", "cat", false, "FEMALE"⟩]
          ⟨ "1", "New", "dog", true, "MALE"⟩)
    ∧ Pet.find
        (update_pets [⟨ "1", "Old", "cat", false, "FEMALE"⟩] "1"
          (some "application/json")
          (JsonBody.valid (some "999") "New" "dog" true "MALE")).2 "1" =
        some ⟨ "1", "New", "dog", true, "MALE"⟩ :=
  update_full_replace_path_id_wins [⟨ "1", "Old", "cat", false, "FEMALE"⟩]
    "1" ⟨ "1", "Old", "cat", false, "FEMALE"⟩ (some "999") "New" "dog"
    "MALE" true (by decide)

/-- C10: whenever a handler answers a 4xx status, the store it returns is
the store it was given: every abort happens before any write. -/
theorem error_leaves_store_unchanged (store : Store) (pid : String)
    (ct : Option String) (form : FormData) (body : JsonBody) :
    (400 ≤ (create_pets store ct form body).1.statusCode →
      (create_pets store ct form body).2 = store)
    ∧ (400 ≤ (update_pets store pid ct body).1.statusCode →
      (update_pets store pid ct body).2 = store)
    ∧ (400 ≤ (purchase_pets store pid).1.statusCode →
      (purchase_pets store pid).2 = store)
    ∧ (400 ≤ (delete_pets store pid).1.statusCode →
      (delete_pets store pid).2 = store) := by
  refine ⟨?_, ?_, ?_, ?_⟩
  · cases ct with
    | none => intro _; rfl
    | some s =>
      by_cases hs : s.isEmpty = true
      · have hfalsy : truthyParam (some s) = false := by
          simp [truthyParam, hs]
        intro _
        simp [create_pets, hfalsy]
      · have hf2 : s.isEmpty = false := Bool.eq_false_iff.mpr hs
        have hfalsy : truthyParam (some s) = true := by
          simp [truthyParam, hf2]
        by_cases h1 : s = "application/x-www-form-urlencoded"
        · subst h1
          by_cases hg : validGender form.gender = true
          · intro h
            have hst : (create_pets store
                (some "application/x-www-form-urlencoded") form
                body).1.statusCode = 201 := by
              have hct : truthyParam
                  (some "application/x-www-form-urlencoded") = true := rfl
              simp [create_pets, hct, hg, deserialize, Resp.statusCode]
            rw [hst] at h
            omega
          · have hg2 : validGender form.gender = false :=
              Bool.eq_false_iff.mpr hg
            intro _
            have hct : truthyParam
                (some "application/x-www-form-urlencoded") = true := rfl
            simp [create_pets, hct, hg2, deserialize]
        · by_cases h2 : s = "application/json"
          · subst h2
            cases body with
            | malformed => intro _; rfl
            | valid i bn bc ba bg =>
              intro h
              have hst : (create_pets store (some "application/json") form
                  (JsonBody.valid i bn bc ba bg)).1.statusCode = 201 := rfl
              rw [hst] at h
              omega
          · have hb1 : (s == "application/x-www-form-urlencoded") = false :=
              beq_eq_false_iff_ne.mpr h1
            have hb2 : (s == "application/json") = false :=
              beq_eq_false_iff_ne.mpr h2
            intro _
            simp [create_pets, truthyParam, hf2, hb1, hb2]
  · cases hc : check_content_type ct "application/json" with
    | some r =>
      intro _
      simp [update_pets, hc]
    | none =>
      cases hf : Pet.find store pid with
      | none =>
        intro _
        simp [update_pets, hc, hf]
      | some pet =>
        cases body with
        | malformed =>
          intro _
          simp [update_pets, hc, hf, deserialize]
        | valid i bn bc ba bg =>
          intro h
          have hst : (update_pets store pid ct
              (JsonBody.valid i bn bc ba bg)).1.statusCode = 200 := by
            simp [update_pets, hc, hf, deserialize, Resp.statusCode]
          rw [hst] at h
          omega
  · cases hf : Pet.find store pid with
    | none =>
      intro _
      simp [purchase_pets, hf]
    | some pet =>
      by_cases ha : pet.available = true
      · intro h
        have hst : (purchase_pets store pid).1.statusCode = 200 := by
          simp [purchase_pets, hf, ha, Resp.statusCode]
        rw [hst] at h
        omega
      · intro _
        have ha2 : pet.available = false := Bool.eq_false_iff.mpr ha
        simp [purchase_pets, hf, ha2]
  · intro h
    have hst : (delete_pets store pid).1.statusCode = 204 := by
      cases hf : Pet.find store pid with
      | none => simp [delete_pets, hf, Resp.statusCode]
      | some pet => simp [delete_pets, hf, Resp.statusCode]
    rw [hst] at h
    omega

/-- C10 witness: a purchase of a missing id answers 404 and leaves the
empty store empty. -/
theorem error_leaves_store_unchanged_witness :
    (purchase_pets [] "1").2 = [] :=
  (error_leaves_store_unchanged [] "1" none ⟨ "", "", "", ""⟩
    JsonBody.malformed).2.2.1 (by decide)

end PetStore
